import Mathlib

/-!
# Verification of the suraksha AI service analytics engines

Shallow embedding of the three analytical engines of the service
(`risk_predictor.py`, `pattern_analyzer.py`, `anomaly_detector.py`) together
with theorems settling the frozen behavioural claims about them.

Modelling conventions:
* Python floats are modelled as exact rationals (`ℚ`); the heuristic formulas
  only use field arithmetic, so this is faithful up to floating-point rounding.
* Timestamps (`datetime`) are modelled by epoch seconds (`ℤ`); a point's age
  `now - timestamp` is carried as a field `secs_old`, and `timedelta.days`
  becomes floor division by 86400.
* `geopy.geodesic`, `np.arctan2`, `np.pi` and `math.sqrt` are transcendental;
  they are abstracted into a `GeoEnv` record of rational-valued functions, and
  every theorem quantifies over the environment (`geodesic_m` is derived from
  `geodesic_km` by the real relation `m = 1000 * km`).
* `try/except` arms around a block are embedded by a Boolean `fail` parameter
  that abstracts "the guarded block raised": `fail = true` selects the
  `except` arm's value.  The surrounding control flow is otherwise verbatim.
* Calls into the MongoDB gateway are embedded as function-valued parameters
  (the records the gateway would return), and the write/read traffic the
  engine generates is returned explicitly as a `GatewayCall` list.
-/

/-- Python `round(x, 2)` on an exact rational: round half to even applied to
`x * 100`.  `rhe` is the integer-valued round-half-even function. -/
def rhe (q : ℚ) : ℤ :=
  let f := ⌊q⌋
  let r := q - (f : ℚ)
  if r < 1/2 then f
  else if 1/2 < r then f + 1
  else if Even f then f else f + 1

/-- Python `round(x, 2)`. -/
def round2 (q : ℚ) : ℚ := ((rhe (q * 100) : ℤ) : ℚ) / 100

/-- Python `max(xs)` on a list of numbers (0 on `[]`; every use site is
guarded by a non-emptiness test, as in the source). -/
def listMax : List ℚ → ℚ
  | [] => 0
  | x :: xs => xs.foldl max x

/-- Python `min(xs)` on a list of numbers (0 on `[]`; guarded at use sites). -/
def listMin : List ℚ → ℚ
  | [] => 0
  | x :: xs => xs.foldl min x

/-- `np.mean(xs)` (use sites are guarded against the empty list). -/
def npMean (xs : List ℚ) : ℚ := xs.sum / (xs.length : ℚ)

/-- The consecutive pairs `(xs[i-1], xs[i])` of a list, the shape of every
`for i in range(1, len(xs))` loop in the source. -/
def consecutive_pairs {α : Type} : List α → List (α × α)
  | [] => []
  | [_] => []
  | a :: b :: rest => (a, b) :: consecutive_pairs (b :: rest)

/-- A latitude/longitude pair. -/
structure GeoPoint where
  lat : ℚ
  lng : ℚ
deriving DecidableEq

/-- Abstraction of the transcendental numeric primitives used by the engines:
`geopy.distance.geodesic(..).kilometers`, `np.arctan2`, `np.pi`, the square
root used by `np.std`.  All are opaque rational-valued parameters; theorems
hold for every environment. -/
structure GeoEnv where
  geodesic_km : GeoPoint → GeoPoint → ℚ
  arctan2 : ℚ → ℚ → ℚ
  pi : ℚ
  sqrt : ℚ → ℚ

/-- `geodesic(..).meters = 1000 * geodesic(..).kilometers`. -/
def GeoEnv.geodesic_m (e : GeoEnv) (p q : GeoPoint) : ℚ := 1000 * e.geodesic_km p q

/-- A trivial concrete environment (zero distances and angles), used to
instantiate universally quantified theorems at concrete inputs. -/
def zeroEnv : GeoEnv := ⟨fun _ _ => 0, fun _ _ => 0, 0, fun _ => 0⟩

/-- An incident record as consumed by the engines: `location.coordinates`
(`[lng, lat]`) unpacked into `lat`/`lng`, `type`, `severity`, and the age
`now - createdAt` in seconds. -/
structure Incident where
  lat : ℚ
  lng : ℚ
  itype : String
  severity : String
  secs_old : ℤ
deriving DecidableEq

/-- A panic-alert record: location plus the age `now - timestamp` in
seconds. -/
structure PanicAlert where
  lat : ℚ
  lng : ℚ
  secs_old : ℤ
deriving DecidableEq

/-! ## Risk Engine (`risk_predictor.py`) -/

/-- `incident_weights.get(incident_type, 1.0)` in `_calculate_point_risk`. -/
def incident_weights (t : String) : ℚ :=
  if t = "crime" then 3
  else if t = "accident" then 2
  else if t = "medical" then 3/2
  else if t = "fire" then 5/2
  else if t = "other" then 1
  else 1

/-- The severity multiplier lookup (default 1.0) in `_calculate_point_risk`. -/
def severity_multiplier (s : String) : ℚ :=
  if s = "low" then 1/2
  else if s = "medium" then 1
  else if s = "high" then 3/2
  else if s = "critical" then 2
  else 1

/-- `RiskPredictor._calculate_point_risk` (happy path; its `except` arm
returns 20.0 and is unreachable in this pure model). -/
def calculate_point_risk (incidents : List Incident) (panic_alerts : List PanicAlert) : ℚ :=
  let incident_score :=
    incidents.foldl (fun acc i => acc + incident_weights i.itype * severity_multiplier i.severity) 0
  let panic_score : ℚ := (panic_alerts.length : ℚ) * 2
  let total_score := incident_score + panic_score
  let normalized_score := min 80 (total_score / 10 * 80)
  max 5 normalized_score

/-- A route: `{'start': .., 'end': .., 'waypoints': [..]}`. -/
structure Route where
  start : GeoPoint
  end_ : GeoPoint
  waypoints : List GeoPoint
deriving DecidableEq

/-- `RiskPredictor._get_time_risk_modifier`. -/
def get_time_risk_modifier (time_of_day : String) : ℚ :=
  if time_of_day = "morning" then 8/10
  else if time_of_day = "afternoon" then 9/10
  else if time_of_day = "evening" then 11/10
  else if time_of_day = "night" then 13/10
  else if time_of_day = "late_night" then 3/2
  else 1

/-- `RiskPredictor._get_route_characteristics_modifier` (happy path). -/
def get_route_characteristics_modifier (env : GeoEnv) (route : Route) : ℚ :=
  let distance := env.geodesic_km route.start route.end_
  let distance_modifier := 1 + distance / 100 * (1/10)
  let waypoint_modifier := 1 + (route.waypoints.length : ℚ) * (5/100)
  min (3/2) (distance_modifier * waypoint_modifier)

/-- `RiskPredictor._calculate_historical_risk` (happy path).  The incidents
and alerts the gateway returns for the radius query around a point are
supplied by the parameters `getIncidents` / `getAlerts`. -/
def calculate_historical_risk (getIncidents : GeoPoint → List Incident)
    (getAlerts : GeoPoint → List PanicAlert) (route : Route) : ℚ :=
  let all_points := route.start :: (route.waypoints ++ [route.end_])
  let total_risk :=
    (all_points.map (fun p => calculate_point_risk (getIncidents p) (getAlerts p))).sum
  let point_count := all_points.length
  let avg_risk : ℚ := if 0 < point_count then total_risk / (point_count : ℚ) else 20
  min 80 avg_risk

/-- `RiskPredictor.predict_route_risk` (happy path; the stored prediction is
a fire-and-forget write with no influence on the returned value). -/
def predict_route_risk (env : GeoEnv) (getIncidents : GeoPoint → List Incident)
    (getAlerts : GeoPoint → List PanicAlert) (route : Route) (time_of_day : String) : ℚ :=
  let base_risk := calculate_historical_risk getIncidents getAlerts route
  let time_modifier := get_time_risk_modifier time_of_day
  let route_modifier := get_route_characteristics_modifier env route
  let risk_score := min 100 (base_risk * time_modifier * route_modifier)
  round2 risk_score

/-! ## Pattern Engine (`pattern_analyzer.py`) -/

/-- `config.MIN_INCIDENTS_FOR_HOTSPOT` (env-configurable, default 5). -/
def MIN_INCIDENTS_FOR_HOTSPOT : ℕ := 5

/-- `config.HOTSPOT_RADIUS` in km (env-configurable, default 0.5). -/
def HOTSPOT_RADIUS : ℚ := 1/2

/-- A weighted geo-point fed to hotspot clustering, as built by
`_identify_hotspots`: `ptype` is `"incident"` or `"panic_alert"`, `subtype`
the incident type (or `"emergency"` for alerts), plus severity and age. -/
structure HotspotPoint where
  lat : ℚ
  lng : ℚ
  ptype : String
  subtype : String
  severity : String
  secs_old : ℤ
deriving DecidableEq

/-- A proximity cluster as built by `_cluster_points`. -/
structure Cluster where
  center : GeoPoint
  points : List HotspotPoint
  incident_count : ℕ
deriving DecidableEq

/-- The centroid update `np.mean` over member coordinates. -/
def centroid (pts : List HotspotPoint) : GeoPoint :=
  ⟨npMean (pts.map (·.lat)), npMean (pts.map (·.lng))⟩

/-- `PatternAnalyzer._cluster_points`: greedy single-pass clustering.  Each
iteration pops the first unclustered point as seed, absorbs every remaining
point within `radius_km` of the seed, recomputes the centroid when the
cluster has more than one member, and keeps the cluster only when its member
count reaches `minCount` (the source reads `config.MIN_INCIDENTS_FOR_HOTSPOT`
there; the configured value is a parameter here). -/
def cluster_points (env : GeoEnv) (radius_km : ℚ) (minCount : ℕ) :
    List HotspotPoint → List Cluster
  | [] => []
  | seed :: rest =>
    let near := rest.filter fun p =>
      decide (env.geodesic_km ⟨seed.lat, seed.lng⟩ ⟨p.lat, p.lng⟩ ≤ radius_km)
    let far := rest.filter fun p =>
      ! decide (env.geodesic_km ⟨seed.lat, seed.lng⟩ ⟨p.lat, p.lng⟩ ≤ radius_km)
    let pts := seed :: near
    let cl : Cluster :=
      ⟨if 1 < pts.length then centroid pts else ⟨seed.lat, seed.lng⟩, pts, pts.length⟩
    (if minCount ≤ pts.length then [cl] else []) ++ cluster_points env radius_km minCount far
termination_by l => l.length
decreasing_by
  simp only [List.length_cons]
  exact Nat.lt_succ_of_le (List.length_filter_le _ _)

/-- `severity_weights.get(severity, 2)` in `_rank_hotspots`. -/
def hotspot_severity_weight (s : String) : ℚ :=
  if s = "low" then 1
  else if s = "medium" then 2
  else if s = "high" then 3
  else if s = "critical" then 4
  else 2

/-- `type_weights.get(subtype, 1)` in `_rank_hotspots`. -/
def hotspot_type_weight (t : String) : ℚ :=
  if t = "panic_alert" then 3
  else if t = "crime" then 3
  else if t = "accident" then 2
  else if t = "medical" then 2
  else if t = "fire" then 2
  else if t = "other" then 1
  else 1

/-- `(now - timestamp).days` for a point: floor division of its age in
seconds by 86400 (Python `timedelta.days` floors). -/
def days_old (p : HotspotPoint) : ℤ := Int.fdiv p.secs_old 86400

/-- The per-point time decay `max(0.1, 1.0 - days_old / 30)`. -/
def time_weight_of (p : HotspotPoint) : ℚ :=
  max (1/10) (1 - (days_old p : ℚ) / 30)

/-- The severity-times-type weighted sum accumulated over a cluster's
members in `_rank_hotspots`. -/
def cluster_risk_score (c : Cluster) : ℚ :=
  c.points.foldl
    (fun acc p => acc + hotspot_severity_weight p.severity * hotspot_type_weight p.subtype) 0

/-- `final_score = risk_score * avg_time_weight` for a cluster
(`np.mean(time_weights) if time_weights else 1.0`). -/
def cluster_final_score (c : Cluster) : ℚ :=
  let time_weights := c.points.map time_weight_of
  let avg_time_weight := if time_weights ≠ [] then npMean time_weights else 1
  cluster_risk_score c * avg_time_weight

/-- `PatternAnalyzer._get_risk_level` (the Pattern Engine's scale). -/
def pattern_risk_level (score : ℚ) : String :=
  if score < 10 then "low"
  else if score < 20 then "moderate"
  else if score < 35 then "high"
  else "critical"

/-- The insertion-ordered `defaultdict(int)` bump used for
`incident_breakdown`. -/
def breakdown_bump : List (String × ℕ) → String → List (String × ℕ)
  | [], s => [(s, 1)]
  | (t, n) :: rest, s =>
    if t = s then (t, n + 1) :: rest else (t, n) :: breakdown_bump rest s

/-- `incident_breakdown`: counts by subtype in first-appearance order. -/
def incident_breakdown (pts : List HotspotPoint) : List (String × ℕ) :=
  pts.foldl (fun acc p => breakdown_bump acc p.subtype) []

/-- Python `max(items, key=lambda x: x[1])[0]`: the first key attaining the
maximal count ("" on the empty list, which is unreachable because clusters
are non-empty). -/
def most_common_type (l : List (String × ℕ)) : String :=
  match l with
  | [] => ""
  | x :: xs => (xs.foldl (fun best a => if best.2 < a.2 then a else best) x).1

/-- `_is_recent(timestamp, days=7)`: `timestamp >= now - 7 days`. -/
def is_recent (p : HotspotPoint) : Bool := decide (p.secs_old ≤ 7 * 86400)

/-- A ranked hotspot record as assembled by `_rank_hotspots`. -/
structure Hotspot where
  center : GeoPoint
  incident_count : ℕ
  risk_score : ℚ
  risk_level : String
  radius_km : ℚ
  incident_breakdown : List (String × ℕ)
  most_common_type : String
  recent_incidents : ℕ
deriving DecidableEq

/-- `PatternAnalyzer._rank_hotspots`: score each cluster, then stable-sort by
rounded `risk_score` descending (Python `list.sort(key=.., reverse=True)`). -/
def rank_hotspots (clusters : List Cluster) : List Hotspot :=
  let ranked := clusters.map fun c =>
    let final_score := cluster_final_score c
    { center := c.center
      incident_count := c.incident_count
      risk_score := round2 final_score
      risk_level := pattern_risk_level final_score
      radius_km := HOTSPOT_RADIUS
      incident_breakdown := incident_breakdown c.points
      most_common_type := most_common_type (incident_breakdown c.points)
      recent_incidents := (c.points.filter is_recent).length : Hotspot }
  ranked.mergeSort fun a b => decide (b.risk_score ≤ a.risk_score)

/-- The weighted point built from an incident in `_identify_hotspots`. -/
def incident_to_point (i : Incident) : HotspotPoint :=
  ⟨i.lat, i.lng, "incident", i.itype, i.severity, i.secs_old⟩

/-- The weighted point built from a panic alert in `_identify_hotspots`:
note the subtype is the literal `"emergency"`, severity `"high"`. -/
def alert_to_point (a : PanicAlert) : HotspotPoint :=
  ⟨a.lat, a.lng, "panic_alert", "emergency", "high", a.secs_old⟩

/-- `PatternAnalyzer._identify_hotspots` (happy path): merge, threshold,
cluster, rank, and return the top 10. -/
def identify_hotspots (env : GeoEnv) (incidents : List Incident)
    (panic_alerts : List PanicAlert) : List Hotspot :=
  let all_points := incidents.map incident_to_point ++ panic_alerts.map alert_to_point
  if all_points.length < MIN_INCIDENTS_FOR_HOTSPOT then []
  else
    (rank_hotspots (cluster_points env HOTSPOT_RADIUS MIN_INCIDENTS_FOR_HOTSPOT all_points)).take 10

/-- An event row of `_analyze_trends` (incident or panic alert with a
timestamp in epoch seconds). -/
structure TrendEvent where
  timestamp : ℤ
  etype : String
  severity : String
deriving DecidableEq

/-- `PatternAnalyzer._calculate_trend_direction`.  Note the split point: the
sorted EVENT LIST is cut at its median index (`len // 2`), and the two event
counts are each divided by half the day range. -/
def calculate_trend_direction (events : List TrendEvent) (total_days : ℤ) : String :=
  if events.length < 4 ∨ total_days < 7 then "insufficient_data"
  else
    let sorted_events := events.mergeSort fun a b => decide (a.timestamp ≤ b.timestamp)
    let mid_point := sorted_events.length / 2
    let first_half := sorted_events.take mid_point
    let second_half := sorted_events.drop mid_point
    let first_half_rate : ℚ := (first_half.length : ℚ) / ((total_days : ℚ) / 2)
    let second_half_rate : ℚ := (second_half.length : ℚ) / ((total_days : ℚ) / 2)
    let change_ratio := if 0 < first_half_rate then second_half_rate / first_half_rate else 1
    if 12/10 < change_ratio then "increasing"
    else if change_ratio < 8/10 then "decreasing"
    else "stable"

/-! ## Anomaly Engine (`anomaly_detector.py`) -/

/-- `config.MOVEMENT_SPEED_THRESHOLD` in km/h (env-configurable, default
100). -/
def MOVEMENT_SPEED_THRESHOLD : ℚ := 100

/-- A raw telemetry point: coordinates, parsed ISO timestamp (epoch
seconds), `accuracy` (`point.get('accuracy', 10)` absorbed into the field)
and the optional reported speed (`point.get('speed', 0)`). -/
structure TelemetryPoint where
  lat : ℚ
  lng : ℚ
  timestamp : ℤ
  accuracy : ℚ
  speed : ℚ
deriving DecidableEq

/-- A telemetry point enriched with the derived movement features of
`_process_location_data`. -/
structure EnrichedPoint where
  lat : ℚ
  lng : ℚ
  timestamp : ℤ
  accuracy : ℚ
  speed : ℚ
  calculated_speed : ℚ
  distance_from_prev : ℚ
  time_from_prev : ℚ
deriving DecidableEq

/-- One step of the enrichment loop: derive features of `pt` from the
previous raw point (`none` for the first point, whose derived fields are
all zero). -/
def enrich_step (env : GeoEnv) (prev : Option TelemetryPoint) (pt : TelemetryPoint) :
    EnrichedPoint :=
  match prev with
  | none => ⟨pt.lat, pt.lng, pt.timestamp, pt.accuracy, pt.speed, 0, 0, 0⟩
  | some pr =>
    let distance := env.geodesic_m ⟨pr.lat, pr.lng⟩ ⟨pt.lat, pt.lng⟩
    let time_diff : ℚ := ((pt.timestamp - pr.timestamp : ℤ) : ℚ)
    let calculated_speed :=
      if pt.speed = 0 ∧ 0 < time_diff then distance / time_diff * (36/10) else pt.speed
    ⟨pt.lat, pt.lng, pt.timestamp, pt.accuracy, pt.speed, calculated_speed, distance, time_diff⟩

/-- `AnomalyDetector._process_location_data`: single forward pass carrying
the previous raw point. -/
def process_location_data (env : GeoEnv) (location_data : List TelemetryPoint) :
    List EnrichedPoint :=
  (location_data.foldl
    (fun (st : List EnrichedPoint × Option TelemetryPoint) pt =>
      (st.1 ++ [enrich_step env st.2 pt], some pt))
    ([], none)).1

/-- `datetime.hour` of an epoch-seconds timestamp (UTC). -/
def hourOf (ts : ℤ) : ℤ := (Int.fdiv ts 3600) % 24

/-- A frequent-location cluster summary returned by
`_get_frequent_locations`. -/
structure FrequentLocation where
  center : GeoPoint
  visit_count : ℕ
deriving DecidableEq

/-- The user's statistical movement profile (`speed_percentiles` flattened
into `p95`/`p99`). -/
structure MovementProfile where
  avg_speed : ℚ
  max_speed : ℚ
  speed_std : ℚ
  avg_distance : ℚ
  avg_time_interval : ℚ
  typical_locations : List FrequentLocation
  p95 : ℚ
  p99 : ℚ
deriving DecidableEq

/-- `AnomalyDetector._get_default_profile`. -/
def get_default_profile : MovementProfile := ⟨25, 60, 15, 500, 300, [], 80, 120⟩

/-- The internal accumulation cluster of `_get_frequent_locations`: note the
center is the FIRST point of the cluster and is never updated. -/
structure FLCluster where
  center : GeoPoint
  points : List GeoPoint
  count : ℕ
deriving DecidableEq

/-- One location of the `_get_frequent_locations` loop: append to the first
existing cluster whose (fixed) center is within `radius_m` meters, else
start a new cluster at the end of the list. -/
def fl_insert (env : GeoEnv) (radius_m : ℚ) : List FLCluster → GeoPoint → List FLCluster
  | [], loc => [⟨loc, [loc], 1⟩]
  | c :: cs, loc =>
    if env.geodesic_m loc c.center ≤ radius_m then
      ⟨c.center, c.points ++ [loc], c.count + 1⟩ :: cs
    else c :: fl_insert env radius_m cs loc

/-- `AnomalyDetector._get_frequent_locations` (the `radius_m` default is
100; `_build_user_profile` calls it with that default): fewer than 5
locations yield `[]`; clusters with at least 3 visits are reported as
center plus visit count. -/
def get_frequent_locations (env : GeoEnv) (locations : List GeoPoint) (radius_m : ℚ) :
    List FrequentLocation :=
  if locations.length < 5 then []
  else
    let clusters := locations.foldl (fl_insert env radius_m) []
    (clusters.filter fun c => decide (3 ≤ c.count)).map fun c => ⟨c.center, c.count⟩

/-- A historical location record (`location.coordinates` plus timestamp in
epoch seconds) as returned by `get_user_location_history`. -/
structure HistoryPoint where
  lat : ℚ
  lng : ℚ
  timestamp : ℤ
deriving DecidableEq

/-- `np.percentile(xs, q)` with numpy's default linear interpolation. -/
def np_percentile (q : ℚ) (xs : List ℚ) : ℚ :=
  let s := xs.mergeSort fun a b => decide (a ≤ b)
  let n := s.length
  if n = 0 then 0
  else
    let pos : ℚ := q / 100 * ((n : ℚ) - 1)
    let i : ℕ := (⌊pos⌋).toNat
    let frac : ℚ := pos - (i : ℚ)
    let lo := s.getD i 0
    let hi := s.getD (i + 1) lo
    lo + frac * (hi - lo)

/-- `AnomalyDetector._build_user_profile`: walk consecutive history pairs,
keep those with positive time delta, and aggregate speed/distance/interval
statistics plus frequent locations (`np.std` is the population standard
deviation, via the abstract square root). -/
def build_user_profile (env : GeoEnv) (location_history : List HistoryPoint) :
    MovementProfile :=
  let rows := (consecutive_pairs location_history).filterMap fun pr =>
    let distance := env.geodesic_m ⟨pr.1.lat, pr.1.lng⟩ ⟨pr.2.lat, pr.2.lng⟩
    let time_diff : ℚ := ((pr.2.timestamp - pr.1.timestamp : ℤ) : ℚ)
    if 0 < time_diff then
      some (distance / time_diff * (36/10), distance, time_diff,
        (⟨pr.2.lat, pr.2.lng⟩ : GeoPoint))
    else none
  let speeds := rows.map (·.1)
  let distances := rows.map (·.2.1)
  let time_intervals := rows.map (·.2.2.1)
  let locations := rows.map (·.2.2.2)
  { avg_speed := if speeds ≠ [] then npMean speeds else 0
    max_speed := if speeds ≠ [] then listMax speeds else 0
    speed_std :=
      if speeds ≠ [] then env.sqrt (npMean (speeds.map fun s => (s - npMean speeds) ^ 2)) else 0
    avg_distance := if distances ≠ [] then npMean distances else 0
    avg_time_interval := if time_intervals ≠ [] then npMean time_intervals else 0
    typical_locations := get_frequent_locations env locations 100
    p95 := if speeds ≠ [] then np_percentile 95 speeds else 0
    p99 := if speeds ≠ [] then np_percentile 99 speeds else 0 }

/-- The gateway traffic an engine call generates. -/
inductive GatewayCall where
  | getUserLocationHistory (user_id : String) (hours_back : ℕ)
  | storeAnomalyDetection (user_id : String)
deriving DecidableEq

/-- `AnomalyDetector._get_user_movement_profile`: cache hit returns the
cached profile with no gateway traffic; otherwise the week of history is
fetched and the profile built (default on fewer than 10 records, or on a
gateway failure, abstracted by `profFail`).  Returns the profile and the
read traffic. -/
def get_user_movement_profile (env : GeoEnv) (cached : Option MovementProfile)
    (profFail : Bool) (history : List HistoryPoint) (user_id : String) :
    MovementProfile × List GatewayCall :=
  match cached with
  | some p => (p, [])
  | none =>
    if profFail then (get_default_profile, [.getUserLocationHistory user_id (24 * 7)])
    else if history.length < 10 then
      (get_default_profile, [.getUserLocationHistory user_id (24 * 7)])
    else (build_user_profile env history, [.getUserLocationHistory user_id (24 * 7)])

/-- The payload of a verdict's `details` string; the `f`-string formatting
of the source is abstracted into the constructor's numeric argument. -/
inductive Details where
  | insufficientData
  | detectionError
  | speedExceedsThreshold (max_speed : ℚ)
  | unusualSpeedForUser (max_speed : ℚ)
  | suddenSpeedChange (max_change : ℚ)
  | erraticMovement (ratio : ℚ)
  | unusualLocationKm (km : ℚ)
  | lateNightMovement (hour : ℤ)
deriving DecidableEq

/-- An anomaly verdict dict.  `details := none` embeds the sub-detector
verdicts that carry no `details` key. -/
structure Verdict where
  is_anomaly : Bool
  confidence : ℚ
  vtype : Option String
  details : Option Details
deriving DecidableEq

/-- `AnomalyDetector._detect_speed_anomaly` (`fail` abstracts its `except`
arm).  The unused local `avg_speed = np.mean(speeds)` of the source is
omitted. -/
def detect_speed_anomaly (fail : Bool) (processed_data : List EnrichedPoint)
    (user_profile : MovementProfile) : Verdict :=
  if fail then ⟨false, 0, some "error", none⟩
  else
    let speeds := (processed_data.map (·.calculated_speed)).filter fun s => decide (0 < s)
    if speeds = [] then ⟨false, 0, none, none⟩
    else
      let max_speed := listMax speeds
      if MOVEMENT_SPEED_THRESHOLD < max_speed then
        ⟨true, 9/10, some "excessive_speed", some (.speedExceedsThreshold max_speed)⟩
      else if user_profile.p99 * (3/2) < max_speed then
        ⟨true, 8/10, some "unusual_speed", some (.unusualSpeedForUser max_speed)⟩
      else
        let speed_changes := (consecutive_pairs speeds).map fun pr => |pr.2 - pr.1|
        if speed_changes ≠ [] ∧ 50 < listMax speed_changes then
          ⟨true, 7/10, some "sudden_speed_change", some (.suddenSpeedChange (listMax speed_changes))⟩
        else ⟨false, 0, none, none⟩

/-- `AnomalyDetector._detect_pattern_anomaly` (`fail` abstracts its `except`
arm); bearings go through the abstract `arctan2`. -/
def detect_pattern_anomaly (env : GeoEnv) (fail : Bool) (processed_data : List EnrichedPoint)
    (_user_profile : MovementProfile) : Verdict :=
  if fail then ⟨false, 0, some "error", none⟩
  else if processed_data.length < 3 then ⟨false, 0, none, none⟩
  else
    let directions := (consecutive_pairs processed_data).filterMap fun pr =>
      if 10 < pr.2.distance_from_prev then
        some (env.arctan2 (pr.2.lng - pr.1.lng) (pr.2.lat - pr.1.lat))
      else none
    if 3 ≤ directions.length then
      let direction_changes := (consecutive_pairs directions).map fun pr =>
        let change := |pr.2 - pr.1|
        if env.pi < change then 2 * env.pi - change else change
      let large_changes := (direction_changes.filter fun c => decide (env.pi / 2 < c)).length
      let erratic_ratio : ℚ := (large_changes : ℚ) / (direction_changes.length : ℚ)
      if 7/10 < erratic_ratio then
        ⟨true, 6/10, some "erratic_movement", some (.erraticMovement erratic_ratio)⟩
      else ⟨false, 0, none, none⟩
    else ⟨false, 0, none, none⟩

/-- `AnomalyDetector._detect_location_anomaly` (`fail` abstracts its
`except` arm). -/
def detect_location_anomaly (env : GeoEnv) (fail : Bool) (processed_data : List EnrichedPoint)
    (user_profile : MovementProfile) : Verdict :=
  if fail then ⟨false, 0, some "error", none⟩
  else if user_profile.typical_locations = [] then ⟨false, 0, none, none⟩
  else
    let current_locations := processed_data.map fun p => (⟨p.lat, p.lng⟩ : GeoPoint)
    let min_distances := current_locations.filterMap fun cl =>
      let distances_to_typical :=
        user_profile.typical_locations.map fun tl => env.geodesic_km cl tl.center
      if distances_to_typical ≠ [] then some (listMin distances_to_typical) else none
    if min_distances ≠ [] then
      let avg_distance_from_typical := npMean min_distances
      if 10 < avg_distance_from_typical then
        ⟨true, 5/10, some "unusual_location", some (.unusualLocationKm avg_distance_from_typical)⟩
      else ⟨false, 0, none, none⟩
    else ⟨false, 0, none, none⟩

/-- `AnomalyDetector._detect_time_anomaly` (`fail` abstracts its `except`
arm; on an empty sequence `processed_data[0]` raises and the arm also
yields the error verdict). -/
def detect_time_anomaly (fail : Bool) (processed_data : List EnrichedPoint)
    (_user_profile : MovementProfile) : Verdict :=
  if fail then ⟨false, 0, some "error", none⟩
  else
    match processed_data with
    | [] => ⟨false, 0, some "error", none⟩
    | p :: _ =>
      let current_hour := hourOf p.timestamp
      if 2 ≤ current_hour ∧ current_hour ≤ 5 then
        ⟨true, 4/10, some "unusual_time", some (.lateNightMovement current_hour)⟩
      else ⟨false, 0, none, none⟩

/-- Python `max(anomalies, key=lambda x: x['confidence'])`: first maximal
element by confidence. -/
def max_by_confidence (v : Verdict) (vs : List Verdict) : Verdict :=
  vs.foldl (fun best a => if best.confidence < a.confidence then a else best) v

/-- Which guarded blocks of a `detect_anomalies` call raise: the top-level
body after the length guard (`top`), the profile fetch (`prof`), and each
sub-detector. -/
structure FailFlags where
  top : Bool
  prof : Bool
  speed : Bool
  pattern : Bool
  location : Bool
  time : Bool
deriving DecidableEq

/-- `AnomalyDetector.detect_anomalies`: the verdict returned to the caller
together with the gateway traffic of the call.  `cached` is the
`user_profiles` cache entry for this user, `history` what the gateway would
return for the week-long history query. -/
def detect_anomalies (env : GeoEnv) (flags : FailFlags) (cached : Option MovementProfile)
    (history : List HistoryPoint) (user_id : String) (location_data : List TelemetryPoint) :
    Verdict × List GatewayCall :=
  if location_data.length < 2 then
    (⟨false, 0, none, some .insufficientData⟩, [])
  else if flags.top then
    (⟨false, 0, some "error", some .detectionError⟩, [])
  else
    let processed_data := process_location_data env location_data
    let fetched := get_user_movement_profile env cached flags.prof history user_id
    let user_profile := fetched.1
    let speed_anomaly := detect_speed_anomaly flags.speed processed_data user_profile
    let pattern_anomaly := detect_pattern_anomaly env flags.pattern processed_data user_profile
    let location_anomaly := detect_location_anomaly env flags.location processed_data user_profile
    let time_anomaly := detect_time_anomaly flags.time processed_data user_profile
    let best := max_by_confidence speed_anomaly [pattern_anomaly, location_anomaly, time_anomaly]
    (best, fetched.2 ++ [.storeAnomalyDetection user_id])

/-! ## Claim-side formulas and concrete scenario inputs

Definitions in this section are written from the wording of the spec's
claims (never from the source); theorems below compare them with the
source-embedded functions above. -/

/-- The route-point list `[start] + waypoints + [end]` as the claims read
it. -/
def route_points (route : Route) : List GeoPoint :=
  route.start :: (route.waypoints ++ [route.end_])

/-- Claim C6's per-point risk formula: `min(80, (weighted_incident_score +
alert_count*2) / 10 * 80)` with a floor of 5, where an incident's weight is
its type weight times its severity multiplier. -/
def claim_point_risk (incidents : List Incident) (panic_alerts : List PanicAlert) : ℚ :=
  let weighted_incident_score :=
    (incidents.map fun i => incident_weights i.itype * severity_multiplier i.severity).sum
  max 5 (min 80 ((weighted_incident_score + (panic_alerts.length : ℚ) * 2) / 10 * 80))

/-- Claim C6's base risk: per-point risks averaged over all route points,
capped at 80. -/
def claim_base_risk (getIncidents : GeoPoint → List Incident)
    (getAlerts : GeoPoint → List PanicAlert) (route : Route) : ℚ :=
  min 80
    (((route_points route).map fun p => claim_point_risk (getIncidents p) (getAlerts p)).sum
      / ((route_points route).length : ℚ))

/-- Claim C6's final score: `min(100, base * time_multiplier *
route_multiplier)`. -/
def claim_final_score (env : GeoEnv) (getIncidents : GeoPoint → List Incident)
    (getAlerts : GeoPoint → List PanicAlert) (route : Route) (time_of_day : String) : ℚ :=
  min 100 (claim_base_risk getIncidents getAlerts route * get_time_risk_modifier time_of_day
    * get_route_characteristics_modifier env route)

/-- Claim C5's type-weight table: crime 3, accident 2, medical 1.5,
fire 2.5, other 1, panic_alert 3. -/
def claim_C5_type_weight (t : String) : ℚ :=
  if t = "crime" then 3
  else if t = "accident" then 2
  else if t = "medical" then 3/2
  else if t = "fire" then 5/2
  else if t = "other" then 1
  else if t = "panic_alert" then 3
  else 1

/-- Claim C5's per-point weight: severity weight times the claim's type
weight (panic-alert points use the table's `panic_alert` entry). -/
def claim_point_weight (p : HotspotPoint) : ℚ :=
  hotspot_severity_weight p.severity *
    (if p.ptype = "panic_alert" then 3 else claim_C5_type_weight p.subtype)

/-- Claim C5's hotspot score: the member weights summed, times the average
over members of `time_decay = max(0.1, 1 - days_old/30)`. -/
def claim_hotspot_score (c : Cluster) : ℚ :=
  (c.points.map claim_point_weight).sum * npMean (c.points.map time_weight_of)

/-- The hotspot score the code actually computes, written as a closed
formula (the type table keyed by `subtype` with medical = fire = 2 and
default 1, so alert points — subtype `"emergency"` — get weight 1). -/
def amended_hotspot_score (c : Cluster) : ℚ :=
  (c.points.map fun p => hotspot_severity_weight p.severity * hotspot_type_weight p.subtype).sum
    * npMean (c.points.map time_weight_of)

/-- The multiset of all member points of a list of clusters. -/
def cluster_members (cs : List Cluster) : Multiset HotspotPoint :=
  (cs.map fun c => (c.points : Multiset HotspotPoint)).sum

/-- The multiset of all member points of the frequent-location accumulation
clusters. -/
def fl_members (cs : List FLCluster) : Multiset GeoPoint :=
  (cs.map fun c => (c.points : Multiset GeoPoint)).sum

/-- The spec's trend scenario: 10 events in a 10-day window, 3 in the first
half of the window (days 1, 2, 3) and 7 in the second half (days 5.5-9.5),
timestamps in epoch seconds. -/
def trend_scenario_events : List TrendEvent :=
  [⟨86400, "crime", "high"⟩, ⟨172800, "crime", "high"⟩, ⟨259200, "crime", "high"⟩,
   ⟨475200, "crime", "high"⟩, ⟨518400, "crime", "high"⟩, ⟨561600, "crime", "high"⟩,
   ⟨604800, "crime", "high"⟩, ⟨691200, "crime", "high"⟩, ⟨734400, "crime", "high"⟩,
   ⟨820800, "crime", "high"⟩]

/-- A telemetry point at the origin with reported speed 0, at epoch second
`ts`. -/
def tpAt (ts : ℤ) : TelemetryPoint := ⟨0, 0, ts, 10, 0⟩

/-- An enriched point at epoch second `ts` with the given calculated
speed. -/
def epAt (ts : ℤ) (cspeed : ℚ) : EnrichedPoint := ⟨0, 0, ts, 10, 0, cspeed, 0, 0⟩

/-- The hotspot point used in counterexamples: a single `medical` incident
of `medium` severity observed just now. -/
def medicalPoint : HotspotPoint := ⟨0, 0, "incident", "medical", "medium", 0⟩

/-- A hotspot point coming from a panic alert observed just now. -/
def alertPoint : HotspotPoint := ⟨0, 0, "panic_alert", "emergency", "high", 0⟩

/-- The list `speeds` of `_detect_speed_anomaly`: the positive calculated
speeds of an enriched sequence, in order. -/
def positive_speeds (data : List EnrichedPoint) : List ℚ :=
  (data.map fun p => p.calculated_speed).filter fun s => decide (0 < s)

/-- The consecutive speed deltas `speed_changes` of `_detect_speed_anomaly`. -/
def speed_deltas (data : List EnrichedPoint) : List ℚ :=
  (consecutive_pairs (positive_speeds data)).map fun pr => |pr.2 - pr.1|

/-! ## Helper lemmas -/

theorem rhe_bounds (q : ℚ) : ⌊q⌋ ≤ rhe q ∧ rhe q ≤ ⌊q⌋ + 1 := by
  simp only [rhe]
  split_ifs <;> omega

theorem rhe_mono {p q : ℚ} (h : p ≤ q) : rhe p ≤ rhe q := by
  have hf := Int.floor_le_floor h
  rcases eq_or_lt_of_le hf with hf2 | hf2
  · have hc : ((⌊p⌋ : ℤ) : ℚ) = ((⌊q⌋ : ℤ) : ℚ) := by exact_mod_cast hf2
    have hfr : p - (⌊p⌋ : ℚ) ≤ q - (⌊q⌋ : ℚ) := by rw [← hc]; linarith
    simp only [rhe, ← hf2]
    rw [← hc] at hfr
    split_ifs <;> first | omega | linarith
  · have h1 := rhe_bounds p
    have h2 := rhe_bounds q
    omega

theorem round2_mono {p q : ℚ} (h : p ≤ q) : round2 p ≤ round2 q := by
  unfold round2
  have h1 : rhe (p * 100) ≤ rhe (q * 100) := rhe_mono (by linarith)
  have h100 : (0:ℚ) < 100 := by norm_num
  exact (div_le_div_iff_of_pos_right h100).mpr (by exact_mod_cast h1)

theorem foldl_add_eq_sum {α : Type} (f : α → ℚ) (l : List α) (a : ℚ) :
    l.foldl (fun acc x => acc + f x) a = a + (l.map f).sum := by
  induction l generalizing a with
  | nil => simp
  | cons x xs ih => simp [ih, add_assoc]

theorem calculate_point_risk_ge_five (incidents : List Incident)
    (panic_alerts : List PanicAlert) : 5 ≤ calculate_point_risk incidents panic_alerts :=
  le_max_left 5 _

theorem calculate_historical_risk_nonneg (gi : GeoPoint → List Incident)
    (ga : GeoPoint → List PanicAlert) (route : Route) :
    0 ≤ calculate_historical_risk gi ga route := by
  have hsum : 0 ≤ ((route.start :: (route.waypoints ++ [route.end_])).map
      (fun p => calculate_point_risk (gi p) (ga p))).sum := by
    apply List.sum_nonneg
    intro x hx
    obtain ⟨p, _, rfl⟩ := List.mem_map.mp hx
    exact le_trans (by norm_num) (calculate_point_risk_ge_five _ _)
  simp only [calculate_historical_risk]
  refine le_min (by norm_num) ?_
  split_ifs with h
  · exact div_nonneg hsum (by positivity)
  · norm_num

theorem route_modifier_nonneg (env : GeoEnv) (route : Route)
    (hd : 0 ≤ env.geodesic_km route.start route.end_) :
    0 ≤ get_route_characteristics_modifier env route := by
  simp only [get_route_characteristics_modifier]
  refine le_min (by norm_num) ?_
  have hq : (0:ℚ) ≤ env.geodesic_km route.start route.end_ / 100 * (1/10) := by positivity
  have h1 : (0:ℚ) ≤ 1 + env.geodesic_km route.start route.end_ / 100 * (1/10) := by linarith
  have h2 : (0:ℚ) ≤ 1 + (route.waypoints.length : ℚ) * (5/100) := by positivity
  exact mul_nonneg h1 h2

theorem predict_route_risk_time_le (env : GeoEnv) (gi : GeoPoint → List Incident)
    (ga : GeoPoint → List PanicAlert) (route : Route)
    (hd : 0 ≤ env.geodesic_km route.start route.end_) (t1 t2 : String)
    (h : get_time_risk_modifier t1 ≤ get_time_risk_modifier t2) :
    predict_route_risk env gi ga route t1 ≤ predict_route_risk env gi ga route t2 := by
  simp only [predict_route_risk]
  apply round2_mono
  apply min_le_min_left
  apply mul_le_mul_of_nonneg_right _ (route_modifier_nonneg env route hd)
  exact mul_le_mul_of_nonneg_left h (calculate_historical_risk_nonneg gi ga route)

/-! ## Claims about the Risk Engine -/

/-- C6: for every route, data store, and time-of-day category, the per-point
risk is `min(80, (weighted_incident_score + alert_count*2)/10*80)` floored
at 5 (weight = type weight × severity multiplier), the base risk is the
per-point risks averaged over all route points capped at 80, and the value
returned by `predict_route_risk` is `min(100, base * time_mult *
route_mult)` rounded to 2 decimals. -/
theorem predict_route_risk_formula :
    (∀ (incidents : List Incident) (alerts : List PanicAlert),
      calculate_point_risk incidents alerts = claim_point_risk incidents alerts) ∧
    (∀ (gi : GeoPoint → List Incident) (ga : GeoPoint → List PanicAlert) (route : Route),
      calculate_historical_risk gi ga route = claim_base_risk gi ga route) ∧
    (∀ (env : GeoEnv) (gi : GeoPoint → List Incident) (ga : GeoPoint → List PanicAlert)
      (route : Route) (t : String),
      predict_route_risk env gi ga route t = round2 (claim_final_score env gi ga route t)) := by
  have hpoint : ∀ (incidents : List Incident) (alerts : List PanicAlert),
      calculate_point_risk incidents alerts = claim_point_risk incidents alerts := by
    intro incidents alerts
    simp only [calculate_point_risk, claim_point_risk, foldl_add_eq_sum, zero_add]
  have hbase : ∀ (gi : GeoPoint → List Incident) (ga : GeoPoint → List PanicAlert)
      (route : Route), calculate_historical_risk gi ga route = claim_base_risk gi ga route := by
    intro gi ga route
    have hlen : 0 < (route.start :: (route.waypoints ++ [route.end_])).length := by simp
    simp only [calculate_historical_risk, claim_base_risk, route_points]
    rw [if_pos hlen]
    simp only [hpoint]
  refine ⟨hpoint, hbase, ?_⟩
  intro env gi ga route t
  simp only [predict_route_risk, claim_final_score, hbase]

/-- C4 counterexample: for a route whose endpoints have no historical
incidents and no panic alerts in radius, the base (historical) risk the code
computes is 5 — the per-point floor — not 20, and with `time_of_day="day"`
and no waypoints the returned score is 5.0, not ≈20.0. -/
theorem risk_no_incident_counterexample :
    calculate_historical_risk (fun _ => []) (fun _ => []) ⟨⟨0,0⟩, ⟨0,0⟩, []⟩ = 5 ∧
    predict_route_risk zeroEnv (fun _ => []) (fun _ => []) ⟨⟨0,0⟩, ⟨0,0⟩, []⟩ "day" = 5 ∧
    calculate_historical_risk (fun _ => []) (fun _ => []) ⟨⟨0,0⟩, ⟨0,0⟩, []⟩ ≠ 20 ∧
    predict_route_risk zeroEnv (fun _ => []) (fun _ => []) ⟨⟨0,0⟩, ⟨0,0⟩, []⟩ "day" ≠ 20 := by
  have h1 : calculate_historical_risk (fun _ => []) (fun _ => []) ⟨⟨0,0⟩, ⟨0,0⟩, []⟩ = 5 := by
    norm_num [calculate_historical_risk, calculate_point_risk]
  have h2 : predict_route_risk zeroEnv (fun _ => []) (fun _ => []) ⟨⟨0,0⟩, ⟨0,0⟩, []⟩ "day" = 5 := by
    rw [predict_route_risk, h1]
    simp [get_time_risk_modifier, get_route_characteristics_modifier, zeroEnv, String.reduceEq]
    norm_num [round2, rhe]
  refine ⟨h1, h2, by rw [h1]; norm_num, by rw [h2]; norm_num⟩

/-- C4 amended: for a route with no historical incidents and no panic
alerts in any route point's radius, the base (historical) risk is 5 (the
per-point minimum baseline), and with `time_of_day="day"` (multiplier 1.0),
no waypoints and zero start-to-end distance the final returned score is
5.0. -/
theorem risk_no_incident_amended (env : GeoEnv) (gi : GeoPoint → List Incident)
    (ga : GeoPoint → List PanicAlert) (route : Route)
    (hinc : ∀ p, gi p = []) (hal : ∀ p, ga p = [])
    (hw : route.waypoints = []) (hd : env.geodesic_km route.start route.end_ = 0) :
    calculate_historical_risk gi ga route = 5 ∧
    predict_route_risk env gi ga route "day" = 5 := by
  have hhist : calculate_historical_risk gi ga route = 5 := by
    norm_num [calculate_historical_risk, hinc, hal, hw, calculate_point_risk]
  refine ⟨hhist, ?_⟩
  rw [predict_route_risk, hhist]
  simp [get_time_risk_modifier, get_route_characteristics_modifier, hd, hw, String.reduceEq]
  norm_num [round2, rhe]

/-- Witness for the amended C4 statement at a concrete route and store. -/
theorem risk_no_incident_amended_witness :
    calculate_historical_risk (fun _ => []) (fun _ => []) ⟨⟨0,0⟩, ⟨1,1⟩, []⟩ = 5 ∧
    predict_route_risk zeroEnv (fun _ => []) (fun _ => []) ⟨⟨0,0⟩, ⟨1,1⟩, []⟩ "day" = 5 :=
  risk_no_incident_amended zeroEnv (fun _ => []) (fun _ => []) ⟨⟨0,0⟩, ⟨1,1⟩, []⟩
    (fun _ => rfl) (fun _ => rfl) rfl rfl

/-- C7: with the route, user and data store held fixed, the returned risk
score is monotonically non-decreasing along the time-of-day ordering
morning, afternoon, evening, night, late_night. -/
theorem predict_route_risk_time_monotone (env : GeoEnv) (gi : GeoPoint → List Incident)
    (ga : GeoPoint → List PanicAlert) (route : Route)
    (hd : 0 ≤ env.geodesic_km route.start route.end_) :
    predict_route_risk env gi ga route "morning" ≤ predict_route_risk env gi ga route "afternoon" ∧
    predict_route_risk env gi ga route "afternoon" ≤ predict_route_risk env gi ga route "evening" ∧
    predict_route_risk env gi ga route "evening" ≤ predict_route_risk env gi ga route "night" ∧
    predict_route_risk env gi ga route "night" ≤ predict_route_risk env gi ga route "late_night" :=
  ⟨predict_route_risk_time_le env gi ga route hd _ _ (by simp only [get_time_risk_modifier, String.reduceEq]; norm_num),
   predict_route_risk_time_le env gi ga route hd _ _ (by simp only [get_time_risk_modifier, String.reduceEq]; norm_num),
   predict_route_risk_time_le env gi ga route hd _ _ (by simp only [get_time_risk_modifier, String.reduceEq]; norm_num),
   predict_route_risk_time_le env gi ga route hd _ _ (by simp only [get_time_risk_modifier, String.reduceEq]; norm_num)⟩

/-- Witness for C7 at a concrete route and store. -/
theorem predict_route_risk_time_monotone_witness :
    predict_route_risk zeroEnv (fun _ => []) (fun _ => []) ⟨⟨0,0⟩, ⟨0,0⟩, []⟩ "morning" ≤
      predict_route_risk zeroEnv (fun _ => []) (fun _ => []) ⟨⟨0,0⟩, ⟨0,0⟩, []⟩ "afternoon" ∧
    predict_route_risk zeroEnv (fun _ => []) (fun _ => []) ⟨⟨0,0⟩, ⟨0,0⟩, []⟩ "afternoon" ≤
      predict_route_risk zeroEnv (fun _ => []) (fun _ => []) ⟨⟨0,0⟩, ⟨0,0⟩, []⟩ "evening" ∧
    predict_route_risk zeroEnv (fun _ => []) (fun _ => []) ⟨⟨0,0⟩, ⟨0,0⟩, []⟩ "evening" ≤
      predict_route_risk zeroEnv (fun _ => []) (fun _ => []) ⟨⟨0,0⟩, ⟨0,0⟩, []⟩ "night" ∧
    predict_route_risk zeroEnv (fun _ => []) (fun _ => []) ⟨⟨0,0⟩, ⟨0,0⟩, []⟩ "night" ≤
      predict_route_risk zeroEnv (fun _ => []) (fun _ => []) ⟨⟨0,0⟩, ⟨0,0⟩, []⟩ "late_night" :=
  predict_route_risk_time_monotone zeroEnv (fun _ => []) (fun _ => []) ⟨⟨0,0⟩, ⟨0,0⟩, []⟩
    (le_refl 0)

/-! ## Claim about trend direction -/

/-- C3 (code-bug evidence): `_calculate_trend_direction` splits the sorted
EVENT LIST at its median index instead of splitting the TIME RANGE in half,
so the spec's scenario — 10 events over a 10-day window with 3 events in
the first half of the window and 7 in the second — evaluates to
`"stable"` (the two event-halves both count 5), not `"increasing"`; and
`"decreasing"` is unreachable for every input, because the second
event-half can never contain fewer events than the first. -/
theorem trend_direction_counts_events_not_time :
    calculate_trend_direction trend_scenario_events 10 = "stable" ∧
    ∀ (events : List TrendEvent) (total_days : ℤ),
      calculate_trend_direction events total_days ≠ "decreasing" := by
  constructor
  · simp only [calculate_trend_direction]
    norm_num [trend_scenario_events, List.length_mergeSort, List.length_take, List.length_drop]
  · intro events total_days
    simp only [calculate_trend_direction]
    by_cases h1 : events.length < 4 ∨ total_days < 7
    · rw [if_pos h1]
      decide
    · rw [if_neg h1]
      push_neg at h1
      obtain ⟨h4, h7⟩ := h1
      have hslen : (events.mergeSort fun a b => decide (a.timestamp ≤ b.timestamp)).length
          = events.length := List.length_mergeSort _
      set s := events.mergeSort fun a b => decide (a.timestamp ≤ b.timestamp) with hs
      have htake : (s.take (s.length / 2)).length = events.length / 2 := by
        rw [List.length_take, hslen, Nat.min_eq_left (Nat.div_le_self _ _)]
      have hdrop : (s.drop (s.length / 2)).length = events.length - events.length / 2 := by
        rw [List.length_drop, hslen]
      rw [htake, hdrop]
      have hhalf : (0:ℚ) < (total_days : ℚ) / 2 := by
        have : (7:ℚ) ≤ (total_days : ℚ) := by exact_mod_cast h7
        linarith
      have hbpos : (0:ℚ) < ((events.length / 2 : ℕ) : ℚ) := by
        have : 2 ≤ events.length / 2 := by omega
        exact_mod_cast Nat.lt_of_lt_of_le (by norm_num) this
      have hba : ((events.length / 2 : ℕ) : ℚ) ≤ ((events.length - events.length / 2 : ℕ) : ℚ) := by
        have : events.length / 2 ≤ events.length - events.length / 2 := by omega
        exact_mod_cast this
      have hfr : (0:ℚ) < ((events.length / 2 : ℕ) : ℚ) / ((total_days : ℚ) / 2) :=
        div_pos hbpos hhalf
      rw [if_pos hfr]
      have hratio : (1:ℚ) ≤ (((events.length - events.length / 2 : ℕ) : ℚ) / ((total_days : ℚ) / 2))
          / (((events.length / 2 : ℕ) : ℚ) / ((total_days : ℚ) / 2)) := by
        apply (one_le_div hfr).mpr
        exact (div_le_div_iff_of_pos_right hhalf).mpr hba
      split_ifs with h2 h3
      · decide
      · linarith
      · decide

/-! ## Claims about clustering -/

theorem cluster_members_append (a b : List Cluster) :
    cluster_members (a ++ b) = cluster_members a + cluster_members b := by
  simp [cluster_members]

theorem cluster_members_if_le (m k : ℕ) (c : Cluster) :
    cluster_members (if m ≤ k then [c] else []) ≤ (c.points : Multiset HotspotPoint) := by
  split_ifs
  · simp [cluster_members]
  · simp [cluster_members]

theorem cluster_members_key (env : GeoEnv) (r : ℚ) (m : ℕ) :
    ∀ (n : ℕ) (pts : List HotspotPoint), pts.length ≤ n →
      cluster_members (cluster_points env r m pts) ≤ (pts : Multiset HotspotPoint) ∧
      (m = 0 → cluster_members (cluster_points env r m pts) = (pts : Multiset HotspotPoint)) := by
  intro n
  induction n with
  | zero =>
    intro pts h
    have hnil : pts = [] := List.eq_nil_of_length_eq_zero (Nat.le_zero.mp h)
    subst hnil
    simp [cluster_points, cluster_members]
  | succ n ih =>
    intro pts h
    cases pts with
    | nil => simp [cluster_points, cluster_members]
    | cons seed rest =>
      rw [cluster_points]
      simp only [cluster_members_append]
      have hfar : (rest.filter fun p =>
          ! decide (env.geodesic_km ⟨seed.lat, seed.lng⟩ ⟨p.lat, p.lng⟩ ≤ r)).length ≤ n := by
        have h1 := List.length_filter_le
          (fun p => ! decide (env.geodesic_km ⟨seed.lat, seed.lng⟩ ⟨p.lat, p.lng⟩ ≤ r)) rest
        simp only [List.length_cons] at h
        omega
      obtain ⟨ihle, iheq⟩ := ih _ hfar
      have hsplit : ((rest.filter fun p =>
            decide (env.geodesic_km ⟨seed.lat, seed.lng⟩ ⟨p.lat, p.lng⟩ ≤ r)) : Multiset HotspotPoint) +
          ((rest.filter fun p =>
            ! decide (env.geodesic_km ⟨seed.lat, seed.lng⟩ ⟨p.lat, p.lng⟩ ≤ r)) : Multiset HotspotPoint) =
          (rest : Multiset HotspotPoint) := by
        rw [Multiset.coe_add]
        exact Multiset.coe_eq_coe.mpr (List.filter_append_perm _ rest)
      have htot : ((seed :: rest.filter fun p =>
            decide (env.geodesic_km ⟨seed.lat, seed.lng⟩ ⟨p.lat, p.lng⟩ ≤ r) :
              List HotspotPoint) : Multiset HotspotPoint) +
          ((rest.filter fun p =>
            ! decide (env.geodesic_km ⟨seed.lat, seed.lng⟩ ⟨p.lat, p.lng⟩ ≤ r)) : Multiset HotspotPoint) =
          ((seed :: rest : List HotspotPoint) : Multiset HotspotPoint) := by
        rw [← Multiset.cons_coe, ← Multiset.cons_coe, Multiset.cons_add, hsplit]
      constructor
      · exact le_trans (add_le_add (cluster_members_if_le _ _ _) ihle) (le_of_eq htot)
      · intro hm
        subst hm
        rw [if_pos (Nat.zero_le _)]
        have h1 : cluster_members [(⟨if 1 < (seed :: rest.filter fun p =>
              decide (env.geodesic_km ⟨seed.lat, seed.lng⟩ ⟨p.lat, p.lng⟩ ≤ r)).length
            then centroid (seed :: rest.filter fun p =>
              decide (env.geodesic_km ⟨seed.lat, seed.lng⟩ ⟨p.lat, p.lng⟩ ≤ r))
            else ⟨seed.lat, seed.lng⟩,
            seed :: rest.filter fun p =>
              decide (env.geodesic_km ⟨seed.lat, seed.lng⟩ ⟨p.lat, p.lng⟩ ≤ r),
            (seed :: rest.filter fun p =>
              decide (env.geodesic_km ⟨seed.lat, seed.lng⟩ ⟨p.lat, p.lng⟩ ≤ r)).length⟩ : Cluster)] =
            ((seed :: rest.filter fun p =>
              decide (env.geodesic_km ⟨seed.lat, seed.lng⟩ ⟨p.lat, p.lng⟩ ≤ r) :
                List HotspotPoint) : Multiset HotspotPoint) := by
          simp [cluster_members]
        rw [h1, iheq rfl, htot]

theorem fl_members_cons (c : FLCluster) (cs : List FLCluster) :
    fl_members (c :: cs) = (c.points : Multiset GeoPoint) + fl_members cs := by
  simp [fl_members]

theorem fl_insert_members (env : GeoEnv) (rm : ℚ) (loc : GeoPoint) :
    ∀ (cs : List FLCluster),
      fl_members (fl_insert env rm cs loc) = loc ::ₘ fl_members cs := by
  intro cs
  induction cs with
  | nil => simp [fl_insert, fl_members]
  | cons c cs ih =>
    rw [fl_insert]
    split_ifs with hcond
    · rw [fl_members_cons, fl_members_cons]
      have hpl : ((c.points ++ [loc] : List GeoPoint) : Multiset GeoPoint) =
          (c.points : Multiset GeoPoint) + {loc} := by
        rw [← Multiset.coe_add]
        simp
      rw [hpl, ← Multiset.singleton_add]
      abel
    · rw [fl_members_cons, fl_members_cons, ih, ← Multiset.singleton_add,
        ← Multiset.singleton_add]
      abel

theorem fl_fold_members (env : GeoEnv) (rm : ℚ) :
    ∀ (locs : List GeoPoint) (cs : List FLCluster),
      fl_members (locs.foldl (fl_insert env rm) cs) =
        fl_members cs + (locs : Multiset GeoPoint) := by
  intro locs
  induction locs with
  | nil => intro cs; simp
  | cons l ls ih =>
    intro cs
    rw [List.foldl_cons, ih, fl_insert_members, ← Multiset.cons_coe, Multiset.add_cons,
      Multiset.cons_add]

/-- C2 counterexample: a single-point input together with the configured
minimum member count 5 produces no clusters at all, so the union of the
returned clusters' member points is empty and is not the input set;
similarly `_get_frequent_locations` on a single location returns nothing. -/
theorem clustering_not_partition_counterexample :
    cluster_points zeroEnv HOTSPOT_RADIUS MIN_INCIDENTS_FOR_HOTSPOT [medicalPoint] = [] ∧
    cluster_members
      (cluster_points zeroEnv HOTSPOT_RADIUS MIN_INCIDENTS_FOR_HOTSPOT [medicalPoint]) ≠
      ([medicalPoint] : Multiset HotspotPoint) ∧
    get_frequent_locations zeroEnv [⟨0, 0⟩] 100 = [] := by
  have h1 : cluster_points zeroEnv HOTSPOT_RADIUS MIN_INCIDENTS_FOR_HOTSPOT [medicalPoint] = [] := by
    rw [cluster_points]
    norm_num [cluster_points, MIN_INCIDENTS_FOR_HOTSPOT]
  refine ⟨h1, ?_, ?_⟩
  · rw [h1]
    simp [cluster_members]
  · rw [get_frequent_locations]
    norm_num

/-- C2 amended: the greedy pass of `_cluster_points` assigns every input
point to exactly one cluster — with the member-count retention filter
disabled (minimum 0) the returned clusters' member multisets sum to exactly
the input — and under any configured minimum the returned clusters are
pairwise-disjoint sub-multisets of the input (no point appears in two
clusters), but the members of clusters below the minimum are dropped from
the output; likewise the accumulation clusters built by
`_get_frequent_locations` partition its input exactly. -/
theorem clustering_partition_amended :
    (∀ (env : GeoEnv) (r : ℚ) (pts : List HotspotPoint),
      cluster_members (cluster_points env r 0 pts) = (pts : Multiset HotspotPoint)) ∧
    (∀ (env : GeoEnv) (r : ℚ) (m : ℕ) (pts : List HotspotPoint),
      cluster_members (cluster_points env r m pts) ≤ (pts : Multiset HotspotPoint)) ∧
    (∀ (env : GeoEnv) (rm : ℚ) (locs : List GeoPoint),
      fl_members (locs.foldl (fl_insert env rm) []) = (locs : Multiset GeoPoint)) := by
  refine ⟨?_, ?_, ?_⟩
  · intro env r pts
    exact (cluster_members_key env r 0 pts.length pts (le_refl _)).2 rfl
  · intro env r m pts
    exact (cluster_members_key env r m pts.length pts (le_refl _)).1
  · intro env rm locs
    rw [fl_fold_members]
    simp [fl_members]

/-! ## Claims about hotspot ranking -/

theorem cluster_final_score_eq (c : Cluster) (h : c.points ≠ []) :
    cluster_final_score c = amended_hotspot_score c := by
  simp only [cluster_final_score, amended_hotspot_score, cluster_risk_score,
    foldl_add_eq_sum, zero_add]
  rw [if_pos]
  simpa using h

/-- C5 counterexample: the claim's type-weight table does not match the
code.  A cluster holding one `medical`/`medium` incident gets risk score
2 × 2 = 4 from the code (table medical = 2) while the claim's formula
(medical = 1.5) gives 3; a cluster holding one panic alert gets 3 × 1 = 3
from the code (alert points carry subtype `"emergency"`, which falls to the
default weight 1) while the claim's table entry panic_alert = 3 gives
3 × 3 = 9. -/
theorem hotspot_weight_table_counterexample :
    ((rank_hotspots [⟨⟨0,0⟩, [medicalPoint], 1⟩]).map fun h => h.risk_score) = [4] ∧
    claim_hotspot_score ⟨⟨0,0⟩, [medicalPoint], 1⟩ = 3 ∧
    ((rank_hotspots [⟨⟨0,0⟩, [alertPoint], 1⟩]).map fun h => h.risk_score) = [3] ∧
    claim_hotspot_score ⟨⟨0,0⟩, [alertPoint], 1⟩ = 9 := by
  refine ⟨?_, ?_, ?_, ?_⟩
  · simp [rank_hotspots, cluster_final_score, cluster_risk_score, hotspot_severity_weight,
      hotspot_type_weight, time_weight_of, days_old, npMean, medicalPoint,
      Int.zero_fdiv, String.reduceEq]
    norm_num [round2, rhe]
  · simp [claim_hotspot_score, claim_point_weight, claim_C5_type_weight,
      hotspot_severity_weight, time_weight_of, days_old, npMean, medicalPoint,
      Int.zero_fdiv, String.reduceEq]
    norm_num
  · simp [rank_hotspots, cluster_final_score, cluster_risk_score, hotspot_severity_weight,
      hotspot_type_weight, time_weight_of, days_old, npMean, alertPoint,
      Int.zero_fdiv, String.reduceEq]
    norm_num [round2, rhe]
  · simp [claim_hotspot_score, claim_point_weight, claim_C5_type_weight,
      hotspot_severity_weight, time_weight_of, days_old, npMean, alertPoint,
      Int.zero_fdiv, String.reduceEq]
    norm_num

/-- C5 amended: each hotspot's `risk_score` is the sum over the cluster's
members of severity weight × type weight — the type weight keyed by the
point's `subtype` via the table panic_alert 3, crime 3, accident 2,
medical 2, fire 2, other 1, default 1 (so panic-alert points, whose subtype
is `"emergency"`, get weight 1) — multiplied by the average over members of
`time_decay = max(0.1, 1 − days_old/30)` and rounded to 2 decimals;
hotspots are returned sorted by this score descending, and
`_identify_hotspots` returns at most 10 of them. -/
theorem rank_hotspots_amended (clusters : List Cluster)
    (hne : ∀ c ∈ clusters, c.points ≠ []) :
    ((rank_hotspots clusters).map fun h => h.risk_score).Perm
      (clusters.map fun c => round2 (amended_hotspot_score c)) ∧
    List.Pairwise (fun a b : Hotspot => b.risk_score ≤ a.risk_score) (rank_hotspots clusters) ∧
    (∀ (env : GeoEnv) (incidents : List Incident) (alerts : List PanicAlert),
      (identify_hotspots env incidents alerts).length ≤ 10) := by
  refine ⟨?_, ?_, ?_⟩
  · have hperm := List.mergeSort_perm
      (clusters.map fun c =>
        ({ center := c.center
           incident_count := c.incident_count
           risk_score := round2 (cluster_final_score c)
           risk_level := pattern_risk_level (cluster_final_score c)
           radius_km := HOTSPOT_RADIUS
           incident_breakdown := incident_breakdown c.points
           most_common_type := most_common_type (incident_breakdown c.points)
           recent_incidents := (c.points.filter is_recent).length } : Hotspot))
      (fun a b => decide (b.risk_score ≤ a.risk_score))
    have h1 : ((rank_hotspots clusters).map fun h => h.risk_score).Perm
        ((clusters.map fun c =>
          ({ center := c.center
             incident_count := c.incident_count
             risk_score := round2 (cluster_final_score c)
             risk_level := pattern_risk_level (cluster_final_score c)
             radius_km := HOTSPOT_RADIUS
             incident_breakdown := incident_breakdown c.points
             most_common_type := most_common_type (incident_breakdown c.points)
             recent_incidents := (c.points.filter is_recent).length } : Hotspot)).map
          fun h => h.risk_score) := List.Perm.map _ hperm
    refine h1.trans (List.Perm.of_eq ?_)
    rw [List.map_map]
    apply List.map_congr_left
    intro c hc
    simp only [Function.comp_apply]
    rw [cluster_final_score_eq c (hne c hc)]
  · have htrans : ∀ (a b c : Hotspot),
        (fun a b : Hotspot => decide (b.risk_score ≤ a.risk_score)) a b = true →
        (fun a b : Hotspot => decide (b.risk_score ≤ a.risk_score)) b c = true →
        (fun a b : Hotspot => decide (b.risk_score ≤ a.risk_score)) a c = true := by
      intro a b c hab hbc
      simp only [decide_eq_true_eq] at *
      exact le_trans hbc hab
    have htotal : ∀ (a b : Hotspot),
        ((fun a b : Hotspot => decide (b.risk_score ≤ a.risk_score)) a b ||
         (fun a b : Hotspot => decide (b.risk_score ≤ a.risk_score)) b a) = true := by
      intro a b
      simp only [Bool.or_eq_true, decide_eq_true_eq]
      exact le_total _ _
    have := List.sorted_mergeSort htrans htotal
      (clusters.map fun c =>
        ({ center := c.center
           incident_count := c.incident_count
           risk_score := round2 (cluster_final_score c)
           risk_level := pattern_risk_level (cluster_final_score c)
           radius_km := HOTSPOT_RADIUS
           incident_breakdown := incident_breakdown c.points
           most_common_type := most_common_type (incident_breakdown c.points)
           recent_incidents := (c.points.filter is_recent).length } : Hotspot))
    exact this.imp fun h => by simpa using h
  · intro env incidents alerts
    rw [identify_hotspots]
    split_ifs
    · simp
    · exact le_trans (List.length_take_le _ _) (le_refl _)

/-- Witness for the amended C5 statement at a concrete one-cluster input. -/
theorem rank_hotspots_amended_witness :
    (((rank_hotspots [⟨⟨0,0⟩, [medicalPoint], 1⟩]).map fun h => h.risk_score).Perm
      ([(⟨⟨0,0⟩, [medicalPoint], 1⟩ : Cluster)].map fun c => round2 (amended_hotspot_score c))) ∧
    List.Pairwise (fun a b : Hotspot => b.risk_score ≤ a.risk_score)
      (rank_hotspots [⟨⟨0,0⟩, [medicalPoint], 1⟩]) ∧
    (∀ (env : GeoEnv) (incidents : List Incident) (alerts : List PanicAlert),
      (identify_hotspots env incidents alerts).length ≤ 10) :=
  rank_hotspots_amended [⟨⟨0,0⟩, [medicalPoint], 1⟩]
    (by intro c hc; simp at hc; subst hc; simp [medicalPoint])

/-! ## Claims about the Anomaly Engine -/

theorem le_foldl_max (x : ℚ) (l : List ℚ) : x ≤ l.foldl max x := by
  induction l generalizing x with
  | nil => exact le_refl x
  | cons y ys ih => exact le_trans (le_max_left x y) (ih (max x y))

theorem mem_le_foldl_max (a x : ℚ) (l : List ℚ) (h : a ∈ l) : a ≤ l.foldl max x := by
  induction l generalizing x with
  | nil => cases h
  | cons y ys ih =>
    rcases List.mem_cons.mp h with h1 | h1
    · subst h1
      exact le_trans (le_max_right x a) (le_foldl_max _ _)
    · exact ih _ h1

theorem foldl_max_mem (x : ℚ) (l : List ℚ) : l.foldl max x = x ∨ l.foldl max x ∈ l := by
  induction l generalizing x with
  | nil => left; rfl
  | cons y ys ih =>
    rcases ih (max x y) with h | h
    · rcases max_choice x y with h2 | h2
      · left
        rw [List.foldl_cons, h, h2]
      · right
        rw [List.foldl_cons, h, h2]
        exact List.mem_cons_self _ _
    · right
      exact List.mem_cons_of_mem _ h

theorem le_listMax {a : ℚ} {l : List ℚ} (h : a ∈ l) : a ≤ listMax l := by
  cases l with
  | nil => cases h
  | cons x xs =>
    simp only [listMax]
    rcases List.mem_cons.mp h with h1 | h1
    · subst h1
      exact le_foldl_max _ _
    · exact mem_le_foldl_max _ _ _ h1

theorem listMax_mem {l : List ℚ} (h : l ≠ []) : listMax l ∈ l := by
  cases l with
  | nil => exact absurd rfl h
  | cons x xs =>
    simp only [listMax]
    rcases foldl_max_mem x xs with h1 | h1
    · rw [h1]
      exact List.mem_cons_self _ _
    · exact List.mem_cons_of_mem _ h1

theorem detect_speed_anomaly_eq (data : List EnrichedPoint) (profile : MovementProfile) :
    detect_speed_anomaly false data profile =
      (if positive_speeds data = [] then (⟨false, 0, none, none⟩ : Verdict)
       else if MOVEMENT_SPEED_THRESHOLD < listMax (positive_speeds data) then
        ⟨true, 9/10, some "excessive_speed",
          some (.speedExceedsThreshold (listMax (positive_speeds data)))⟩
       else if profile.p99 * (3/2) < listMax (positive_speeds data) then
        ⟨true, 8/10, some "unusual_speed",
          some (.unusualSpeedForUser (listMax (positive_speeds data)))⟩
       else if speed_deltas data ≠ [] ∧ 50 < listMax (speed_deltas data) then
        ⟨true, 7/10, some "sudden_speed_change",
          some (.suddenSpeedChange (listMax (speed_deltas data)))⟩
       else ⟨false, 0, none, none⟩) := rfl

theorem detect_speed_anomaly_confidence (fail : Bool) (data : List EnrichedPoint)
    (profile : MovementProfile) :
    0 ≤ (detect_speed_anomaly fail data profile).confidence ∧
    (detect_speed_anomaly fail data profile).confidence ≤ 1 := by
  cases fail
  · rw [detect_speed_anomaly_eq]
    split_ifs <;> norm_num
  · rw [detect_speed_anomaly]
    norm_num

theorem detect_pattern_anomaly_confidence (env : GeoEnv) (fail : Bool)
    (data : List EnrichedPoint) (profile : MovementProfile) :
    0 ≤ (detect_pattern_anomaly env fail data profile).confidence ∧
    (detect_pattern_anomaly env fail data profile).confidence ≤ 1 := by
  simp only [detect_pattern_anomaly]
  split_ifs <;> norm_num

theorem detect_location_anomaly_confidence (env : GeoEnv) (fail : Bool)
    (data : List EnrichedPoint) (profile : MovementProfile) :
    0 ≤ (detect_location_anomaly env fail data profile).confidence ∧
    (detect_location_anomaly env fail data profile).confidence ≤ 1 := by
  simp only [detect_location_anomaly]
  split_ifs <;> norm_num

theorem detect_time_anomaly_confidence (fail : Bool) (data : List EnrichedPoint)
    (profile : MovementProfile) :
    0 ≤ (detect_time_anomaly fail data profile).confidence ∧
    (detect_time_anomaly fail data profile).confidence ≤ 1 := by
  simp only [detect_time_anomaly]
  split_ifs
  all_goals cases data
  all_goals simp
  all_goals split_ifs
  all_goals norm_num

theorem max_by_confidence_cases (v : Verdict) (vs : List Verdict) :
    max_by_confidence v vs = v ∨ max_by_confidence v vs ∈ vs := by
  induction vs generalizing v with
  | nil => left; rfl
  | cons a as ih =>
    simp only [max_by_confidence, List.foldl_cons]
    rcases ih (if v.confidence < a.confidence then a else v) with h | h
    · simp only [max_by_confidence] at h
      by_cases hc : v.confidence < a.confidence
      · right
        rw [h, if_pos hc]
        exact List.mem_cons_self _ _
      · left
        rw [h, if_neg hc]
    · right
      simp only [max_by_confidence] at h
      exact List.mem_cons_of_mem _ h

theorem max_by_confidence_of_le (v : Verdict) (vs : List Verdict)
    (h : ∀ w ∈ vs, w.confidence ≤ v.confidence) : max_by_confidence v vs = v := by
  induction vs generalizing v with
  | nil => rfl
  | cons a as ih =>
    simp only [max_by_confidence, List.foldl_cons]
    rw [if_neg (not_lt.mpr (h a (List.mem_cons_self _ _)))]
    exact ih v fun w hw => h w (List.mem_cons_of_mem _ hw)

theorem detect_anomalies_main (env : GeoEnv) (flags : FailFlags)
    (cached : Option MovementProfile) (history : List HistoryPoint) (user_id : String)
    (location_data : List TelemetryPoint) (hlen : ¬ location_data.length < 2)
    (htop : ¬ flags.top = true) :
    detect_anomalies env flags cached history user_id location_data =
      (max_by_confidence
        (detect_speed_anomaly flags.speed (process_location_data env location_data)
          (get_user_movement_profile env cached flags.prof history user_id).1)
        [detect_pattern_anomaly env flags.pattern (process_location_data env location_data)
          (get_user_movement_profile env cached flags.prof history user_id).1,
         detect_location_anomaly env flags.location (process_location_data env location_data)
          (get_user_movement_profile env cached flags.prof history user_id).1,
         detect_time_anomaly flags.time (process_location_data env location_data)
          (get_user_movement_profile env cached flags.prof history user_id).1],
       (get_user_movement_profile env cached flags.prof history user_id).2 ++
         [.storeAnomalyDetection user_id]) := by
  rw [detect_anomalies, if_neg hlen, if_neg htop]

/-- C10: for a telemetry sequence of length 0 or 1, `detect_anomalies`
returns the insufficient-data verdict `{is_anomaly: false, confidence: 0,
type: none, details: 'Insufficient data'}` immediately, with an empty
gateway-call trace (no history read, no stored detection) and a result
independent of the profile cache, the stored history, and the failure
flags. -/
theorem detect_anomalies_insufficient_data (env : GeoEnv) (flags : FailFlags)
    (cached : Option MovementProfile) (history : List HistoryPoint) (user_id : String)
    (location_data : List TelemetryPoint) (h : location_data.length < 2) :
    detect_anomalies env flags cached history user_id location_data =
      (⟨false, 0, none, some .insufficientData⟩, []) := by
  rw [detect_anomalies, if_pos h]

/-- Witness for C10 at a concrete one-point sequence. -/
theorem detect_anomalies_insufficient_data_witness :
    detect_anomalies zeroEnv ⟨false, false, false, false, false, false⟩ none [] "u" [tpAt 0] =
      (⟨false, 0, none, some .insufficientData⟩, []) :=
  detect_anomalies_insufficient_data zeroEnv ⟨false, false, false, false, false, false⟩
    none [] "u" [tpAt 0] (by norm_num)

/-- C1: for every telemetry sequence of length ≥ 2 (and any environment,
cache state, history, and combination of internal failures),
`detect_anomalies` returns exactly one verdict whose confidence lies in
[0, 1]; when the guarded body raises (`flags.top`) the caller receives the
structured non-anomalous error verdict (is_anomaly = false, confidence 0)
rather than an exception, and when all four sub-detectors fail the result
is likewise non-anomalous with confidence 0. -/
theorem detect_anomalies_verdict_sound (env : GeoEnv) (flags : FailFlags)
    (cached : Option MovementProfile) (history : List HistoryPoint) (user_id : String)
    (location_data : List TelemetryPoint) (h : 2 ≤ location_data.length) :
    (0 ≤ (detect_anomalies env flags cached history user_id location_data).1.confidence ∧
      (detect_anomalies env flags cached history user_id location_data).1.confidence ≤ 1) ∧
    (flags.top = true →
      (detect_anomalies env flags cached history user_id location_data).1 =
        ⟨false, 0, some "error", some .detectionError⟩) ∧
    (flags.top = false → flags.speed = true → flags.pattern = true → flags.location = true →
      flags.time = true →
      (detect_anomalies env flags cached history user_id location_data).1.is_anomaly = false ∧
      (detect_anomalies env flags cached history user_id location_data).1.confidence = 0) := by
  have hlen : ¬ location_data.length < 2 := by omega
  by_cases htop : flags.top = true
  · have he : detect_anomalies env flags cached history user_id location_data =
        (⟨false, 0, some "error", some .detectionError⟩, []) := by
      rw [detect_anomalies, if_neg hlen, if_pos htop]
    rw [he]
    refine ⟨by norm_num, fun _ => rfl, fun hf _ _ _ _ => ?_⟩
    rw [htop] at hf
    cases hf
  · rw [detect_anomalies_main env flags cached history user_id location_data hlen htop]
    dsimp only
    constructor
    · rcases max_by_confidence_cases
        (detect_speed_anomaly flags.speed (process_location_data env location_data)
          (get_user_movement_profile env cached flags.prof history user_id).1)
        [detect_pattern_anomaly env flags.pattern (process_location_data env location_data)
          (get_user_movement_profile env cached flags.prof history user_id).1,
         detect_location_anomaly env flags.location (process_location_data env location_data)
          (get_user_movement_profile env cached flags.prof history user_id).1,
         detect_time_anomaly flags.time (process_location_data env location_data)
          (get_user_movement_profile env cached flags.prof history user_id).1] with h1 | h1
      · rw [h1]
        exact detect_speed_anomaly_confidence _ _ _
      · rcases List.mem_cons.mp h1 with h2 | h2
        · rw [h2]
          exact detect_pattern_anomaly_confidence _ _ _ _
        rcases List.mem_cons.mp h2 with h3 | h3
        · rw [h3]
          exact detect_location_anomaly_confidence _ _ _ _
        rcases List.mem_cons.mp h3 with h4 | h4
        · rw [h4]
          exact detect_time_anomaly_confidence _ _ _
        · cases h4
    · refine ⟨fun habs => absurd habs htop, fun _ hs hp hl ht => ?_⟩
      rw [hs, hp, hl, ht]
      have hsv : detect_speed_anomaly true (process_location_data env location_data)
          (get_user_movement_profile env cached flags.prof history user_id).1 =
          ⟨false, 0, some "error", none⟩ := rfl
      have hpv : detect_pattern_anomaly env true (process_location_data env location_data)
          (get_user_movement_profile env cached flags.prof history user_id).1 =
          ⟨false, 0, some "error", none⟩ := rfl
      have hlv : detect_location_anomaly env true (process_location_data env location_data)
          (get_user_movement_profile env cached flags.prof history user_id).1 =
          ⟨false, 0, some "error", none⟩ := rfl
      have htv : detect_time_anomaly true (process_location_data env location_data)
          (get_user_movement_profile env cached flags.prof history user_id).1 =
          ⟨false, 0, some "error", none⟩ := rfl
      rw [hsv, hpv, hlv, htv, max_by_confidence_of_le]
      · exact ⟨rfl, rfl⟩
      · intro w hw
        simp only [List.mem_cons, List.not_mem_nil, or_false] at hw
        rcases hw with h2 | h2 | h2 <;> subst h2 <;> exact le_refl _

/-- Witness for C1 at a concrete two-point sequence with the top-level
failure flag set. -/
theorem detect_anomalies_verdict_sound_witness :
    (0 ≤ (detect_anomalies zeroEnv ⟨true, false, false, false, false, false⟩ none [] "u"
        [tpAt 0, tpAt 60]).1.confidence ∧
      (detect_anomalies zeroEnv ⟨true, false, false, false, false, false⟩ none [] "u"
        [tpAt 0, tpAt 60]).1.confidence ≤ 1) ∧
    (true = true →
      (detect_anomalies zeroEnv ⟨true, false, false, false, false, false⟩ none [] "u"
        [tpAt 0, tpAt 60]).1 = ⟨false, 0, some "error", some .detectionError⟩) ∧
    (true = false → false = true → false = true → false = true → false = true →
      (detect_anomalies zeroEnv ⟨true, false, false, false, false, false⟩ none [] "u"
        [tpAt 0, tpAt 60]).1.is_anomaly = false ∧
      (detect_anomalies zeroEnv ⟨true, false, false, false, false, false⟩ none [] "u"
        [tpAt 0, tpAt 60]).1.confidence = 0) :=
  detect_anomalies_verdict_sound zeroEnv ⟨true, false, false, false, false, false⟩ none [] "u"
    [tpAt 0, tpAt 60] (by norm_num)

/-- C8: the speed sub-detector fires `excessive_speed` (confidence 0.9) if
any positive calculated speed exceeds the configured absolute threshold;
otherwise `unusual_speed` (0.8) if the maximum speed exceeds 1.5× the
profile's 99th-percentile speed; otherwise `sudden_speed_change` (0.7) if
any consecutive delta of the positive-speed sequence exceeds 50 km/h;
otherwise it does not fire (confidence 0). -/
theorem detect_speed_anomaly_cascade (data : List EnrichedPoint) (profile : MovementProfile) :
    ((∃ s ∈ positive_speeds data, MOVEMENT_SPEED_THRESHOLD < s) →
      detect_speed_anomaly false data profile = ⟨true, 9/10, some "excessive_speed",
        some (.speedExceedsThreshold (listMax (positive_speeds data)))⟩) ∧
    (positive_speeds data ≠ [] →
      (∀ s ∈ positive_speeds data, s ≤ MOVEMENT_SPEED_THRESHOLD) →
      profile.p99 * (3/2) < listMax (positive_speeds data) →
      detect_speed_anomaly false data profile = ⟨true, 8/10, some "unusual_speed",
        some (.unusualSpeedForUser (listMax (positive_speeds data)))⟩) ∧
    ((∀ s ∈ positive_speeds data, s ≤ MOVEMENT_SPEED_THRESHOLD) →
      listMax (positive_speeds data) ≤ profile.p99 * (3/2) →
      (∃ pr ∈ consecutive_pairs (positive_speeds data), 50 < |pr.2 - pr.1|) →
      detect_speed_anomaly false data profile = ⟨true, 7/10, some "sudden_speed_change",
        some (.suddenSpeedChange (listMax (speed_deltas data)))⟩) ∧
    ((∀ s ∈ positive_speeds data, s ≤ MOVEMENT_SPEED_THRESHOLD) →
      listMax (positive_speeds data) ≤ profile.p99 * (3/2) →
      (∀ pr ∈ consecutive_pairs (positive_speeds data), |pr.2 - pr.1| ≤ 50) →
      (detect_speed_anomaly false data profile).is_anomaly = false ∧
      (detect_speed_anomaly false data profile).confidence = 0) := by
  rw [detect_speed_anomaly_eq]
  refine ⟨?_, ?_, ?_, ?_⟩
  · rintro ⟨s, hs, hgt⟩
    have hne : positive_speeds data ≠ [] := fun hnil => by rw [hnil] at hs; cases hs
    rw [if_neg hne, if_pos (lt_of_lt_of_le hgt (le_listMax hs))]
  · intro hne hall hp99
    have hmaxle : listMax (positive_speeds data) ≤ MOVEMENT_SPEED_THRESHOLD :=
      hall _ (listMax_mem hne)
    rw [if_neg hne, if_neg (not_lt.mpr hmaxle), if_pos hp99]
  · intro hall hmax hex
    obtain ⟨pr, hpr, h50⟩ := hex
    have hne : positive_speeds data ≠ [] := by
      intro hnil
      rw [hnil] at hpr
      cases hpr
    have hmaxle : listMax (positive_speeds data) ≤ MOVEMENT_SPEED_THRESHOLD :=
      hall _ (listMax_mem hne)
    have hdmem : |pr.2 - pr.1| ∈ speed_deltas data := List.mem_map_of_mem _ hpr
    have hdne : speed_deltas data ≠ [] := by
      intro hnil
      rw [hnil] at hdmem
      cases hdmem
    have hd50 : 50 < listMax (speed_deltas data) := lt_of_lt_of_le h50 (le_listMax hdmem)
    rw [if_neg hne, if_neg (not_lt.mpr hmaxle), if_neg (not_lt.mpr hmax), if_pos ⟨hdne, hd50⟩]
  · intro hall hmax hno
    by_cases hne : positive_speeds data = []
    · rw [if_pos hne]
      exact ⟨rfl, rfl⟩
    · have hmaxle : listMax (positive_speeds data) ≤ MOVEMENT_SPEED_THRESHOLD :=
        hall _ (listMax_mem hne)
      have hcond : ¬ (speed_deltas data ≠ [] ∧ 50 < listMax (speed_deltas data)) := by
        rintro ⟨hdne, hd50⟩
        have hmem := listMax_mem hdne
        rw [speed_deltas] at hmem hd50
        obtain ⟨pr, hpr, heq⟩ := List.mem_map.mp hmem
        rw [← heq] at hd50
        exact absurd hd50 (not_lt.mpr (hno pr hpr))
      rw [if_neg hne, if_neg (not_lt.mpr hmaxle), if_neg (not_lt.mpr hmax), if_neg hcond]
      exact ⟨rfl, rfl⟩

/-- Witness for C8: a sequence containing one calculated speed of 150 km/h
(threshold 100) makes the detector fire `excessive_speed` with confidence
0.9. -/
theorem detect_speed_anomaly_cascade_witness :
    detect_speed_anomaly false [epAt 0 150] get_default_profile =
      ⟨true, 9/10, some "excessive_speed",
        some (.speedExceedsThreshold (listMax (positive_speeds [epAt 0 150])))⟩ :=
  (detect_speed_anomaly_cascade [epAt 0 150] get_default_profile).1
    ⟨150, by norm_num [positive_speeds, epAt], by norm_num [MOVEMENT_SPEED_THRESHOLD]⟩

/-- C9: the time sub-detector fires `unusual_time` (confidence 0.4) exactly
when the first point's hour lies in the closed interval [2, 5]: hour 2 and
hour 5 trigger it, hour 1 and hour 6 do not. -/
theorem detect_time_anomaly_hour_window :
    (∀ (p : EnrichedPoint) (rest : List EnrichedPoint) (profile : MovementProfile),
      detect_time_anomaly false (p :: rest) profile =
        if 2 ≤ hourOf p.timestamp ∧ hourOf p.timestamp ≤ 5 then
          ⟨true, 4/10, some "unusual_time", some (.lateNightMovement (hourOf p.timestamp))⟩
        else ⟨false, 0, none, none⟩) ∧
    (∀ (p : EnrichedPoint) (rest : List EnrichedPoint) (profile : MovementProfile),
      ((detect_time_anomaly false (p :: rest) profile).is_anomaly = true ↔
        2 ≤ hourOf p.timestamp ∧ hourOf p.timestamp ≤ 5)) ∧
    (detect_time_anomaly false [epAt (2 * 3600) 0] get_default_profile).is_anomaly = true ∧
    (detect_time_anomaly false [epAt (5 * 3600) 0] get_default_profile).is_anomaly = true ∧
    (detect_time_anomaly false [epAt 3600 0] get_default_profile).is_anomaly = false ∧
    (detect_time_anomaly false [epAt (6 * 3600) 0] get_default_profile).is_anomaly = false := by
  have he : ∀ (p : EnrichedPoint) (rest : List EnrichedPoint) (profile : MovementProfile),
      detect_time_anomaly false (p :: rest) profile =
        if 2 ≤ hourOf p.timestamp ∧ hourOf p.timestamp ≤ 5 then
          ⟨true, 4/10, some "unusual_time", some (.lateNightMovement (hourOf p.timestamp))⟩
        else ⟨false, 0, none, none⟩ := fun _ _ _ => rfl
  refine ⟨he, ?_, by decide, by decide, by decide, by decide⟩
  intro p rest profile
  rw [he]
  split_ifs with hc
  · simpa using hc
  · simpa using hc
